import Mathlib

/-!
Shallow embedding of the LifeOS activity-logging assistant (src/index.tsx):
the taxonomy registry (groups / categories / field schemas), the context
window selector, the extraction orchestrator, and the conversation session
controller, together with theorems settling the spec claims.

Machine conventions of the embedding:
* JS timestamps (`Date.now()`, `getTime()`) are `Int` epoch milliseconds.
* JS `Date` local-calendar decomposition is modelled for a fixed-offset
  local timezone `tz` (milliseconds east of UTC): the local day index of a
  timestamp is `(t + tz).fdiv 86400000`.  DST transitions are outside the
  model; none of the claims depend on them.
* Values produced by `JSON.parse` are modelled by the inductive `Json`;
  property access on a parsed object (`d.category`) yields `Option Json`
  (`none` = JavaScript `undefined`).
* The two external inference calls are modelled by their observable
  outcome (`Except Unit _`: `.error` = the promise rejected / threw), and
  `JSON.parse` by a function `String → Option Json` (`none` = SyntaxError
  thrown), both supplied as parameters of the run.
-/

namespace LifeOS

/-- Model of a JavaScript value produced by `JSON.parse`.  Numbers are
modelled as `Int` (no claim depends on fractional values). -/
inductive Json where
  | null : Json
  | bool (b : Bool) : Json
  | num (n : Int) : Json
  | str (s : String) : Json
  | arr (elems : List Json) : Json
  | obj (fields : List (String × Json)) : Json
deriving Repr

/-- JS truthiness of a parsed value (`undefined` is handled by `Option`
at the access site). -/
def jsTruthy : Json → Bool
  | .null => false
  | .bool b => b
  | .num n => n != 0
  | .str s => s != ""
  | .arr _ => true
  | .obj _ => true

/-- Property access `v.k` on a parsed value: `none` models `undefined`.
(JSON.parse keeps the last duplicate key; parsed objects in this model
are duplicate-free, so first-match lookup agrees.)  The source would
throw a TypeError on property access on `null`; the claims only access
object elements, so `null` is mapped to `undefined` here. -/
def jget (v : Json) (k : String) : Option Json :=
  match v with
  | .obj fields => (fields.find? (fun p => p.1 == k)).map (·.2)
  | _ => none

/-- JS `a || b` where `a` may be `undefined`: returns `b` when `a` is
absent or falsy. -/
def jsOr (a : Option Json) (b : Json) : Json :=
  match a with
  | some v => if jsTruthy v then v else b
  | none => b

/-- Message roles (`'user' | 'model' | 'system'`). -/
inductive Role where
  | user : Role
  | model : Role
  | system : Role
deriving DecidableEq, Repr

/-- `interface ChatMessage` (src/index.tsx:222-227). -/
structure ChatMessage where
  role : Role
  text : String
  timestamp : Int
  relatedEntryIds : Option (List String)
deriving DecidableEq, Repr

/-- `interface RawLog` (src/index.tsx:229-233). -/
structure RawLog where
  id : String
  timestamp : Int
  text : String
deriving DecidableEq, Repr

/-- `interface Entry` (src/index.tsx:213-220).  The TS declaration says
`date`/`category`/`event` are strings, but entries materialized from
extraction output carry whatever the parsed JSON held (`category: d.category`
copies the raw value, `undefined` included), so the runtime-accurate types
are `Json` / `Option Json`. -/
structure Entry where
  id : String
  date : Json
  category : Option Json
  event : Option Json
  details : Json
deriving Repr

/-- `type FieldType` (src/index.tsx:47). -/
inductive FieldType where
  | text | number | select | multiselect | date | rating
deriving DecidableEq, Repr

/-- `interface FieldSchema` (src/index.tsx:49-57).  `required?` is a JS
optional boolean whose absence is falsy, modelled as `Bool`. -/
structure Field where
  key : String
  label : String
  type : FieldType
  required : Bool
  options : Option (List String)
  unit : Option String
  placeholder : Option String
deriving DecidableEq, Repr

/-- `interface GroupDef` (src/index.tsx:59-62). -/
structure GroupDef where
  id : String
  label : String
deriving DecidableEq, Repr

/-- One row of `INITIAL_CATEGORY_META` (src/index.tsx:18-44). -/
structure CategoryMeta where
  group : String
  color : String
  icon : String
  label : String
deriving DecidableEq, Repr

/-- `INITIAL_GROUPS` (src/index.tsx:12-16): the fixed set of core groups. -/
def INITIAL_GROUPS : List GroupDef :=
  [⟨"life", "日常"⟩, ⟨"body", "身体"⟩, ⟨"work", "工作"⟩]

/-- `INITIAL_CATEGORY_META` (src/index.tsx:18-44), as an ordered
association list (JS object insertion order). -/
def INITIAL_CATEGORY_META : List (String × CategoryMeta) :=
  [ ("finance_tracking", ⟨"life", "bg-emerald-500", "Wallet", "记账"⟩),
    ("diary", ⟨"life", "bg-indigo-500", "BookHeart", "日记/碎碎念"⟩),
    ("study", ⟨"life", "bg-blue-500", "GraduationCap", "学习"⟩),
    ("entertainment", ⟨"life", "bg-purple-500", "Gamepad2", "娱乐"⟩),
    ("movie", ⟨"life", "bg-pink-500", "Film", "观影"⟩),
    ("reading", ⟨"life", "bg-amber-600", "BookOpen", "读书"⟩),
    ("dining", ⟨"life", "bg-orange-500", "Utensils", "餐饮"⟩),
    ("housework", ⟨"life", "bg-cyan-600", "Home", "家务"⟩),
    ("personal_care", ⟨"life", "bg-rose-400", "Sparkles", "个人护理"⟩),
    ("exercise", ⟨"body", "bg-orange-600", "Dumbbell", "锻炼"⟩),
    ("sleep", ⟨"body", "bg-slate-500", "Moon", "睡眠"⟩),
    ("weight", ⟨"body", "bg-lime-600", "Scale", "体重"⟩),
    ("medical", ⟨"body", "bg-red-500", "Stethoscope", "看病"⟩),
    ("checkup", ⟨"body", "bg-teal-500", "Activity", "体检"⟩),
    ("physiology", ⟨"body", "bg-rose-600", "Droplet", "生理期"⟩),
    ("work", ⟨"work", "bg-sky-600", "Briefcase", "工作"⟩),
    ("idea", ⟨"work", "bg-yellow-500", "Lightbulb", "灵感"⟩),
    ("other", ⟨"life", "bg-gray-500", "Hash", "其他"⟩) ]

/-- The known category keys of a taxonomy snapshot
(`Object.keys(categoryMeta)`). -/
def knownKeys (meta : List (String × CategoryMeta)) : List String :=
  meta.map Prod.fst

/-- `createSchema` (src/index.tsx:65-73): the standard prefix
(`summary`, `time`, `duration`), the category-specific fields, then
`notes` last. -/
def createSchema (specificFields : List Field) : List Field :=
  [ ⟨"summary", "简述", .text, true, none, none, some "10字以内具体的事件描述"⟩,
    ⟨"time", "时间", .text, true, none, none, some "HH:mm"⟩,
    ⟨"duration", "时长", .text, false, none, none, some "例如: 30分钟"⟩ ]
  ++ specificFields
  ++ [⟨"notes", "详情", .text, true, none, none, some "原始信息全部内容原封不动的填写在这里"⟩]

/-- The four standard field keys (src/index.tsx:1656). -/
def standardKeys : List String := ["summary", "time", "duration", "notes"]

/-! ## Taxonomy Registry operations (src/index.tsx:1568-1664) -/

/-- `deleteGroup` (src/index.tsx:1578-1586): rejected (via `alert`, a
user-visible no-op) when `id` is a core group id; otherwise deletes the
group only when the user confirms. -/
def deleteGroup (groups : List GroupDef) (id : String) (confirmDelete : Bool) :
    List GroupDef :=
  if INITIAL_GROUPS.any (fun g => g.id == id) then groups
  else if confirmDelete then groups.filter (fun g => g.id != id)
  else groups

/-- The taxonomy/store state touched by `deleteCategory`
(`categoryMeta`, `customSchemas`, `entries` React state). -/
structure RegistryState where
  categoryMeta : List (String × CategoryMeta)
  customSchemas : List (String × List Field)
  entries : List Entry

/-- `deleteCategory` (src/index.tsx:1619-1626): after the `confirm`
dialog, deletes the key from `categoryMeta` only (`delete newMeta[key]`);
`customSchemas` and `entries` are not touched.  (The source also resets
the `editingSchemaCat` UI selection, which is not registry state.) -/
def deleteCategory (s : RegistryState) (key : String) (confirmDelete : Bool) :
    RegistryState :=
  if confirmDelete then
    { s with categoryMeta := s.categoryMeta.filter (fun p => p.1 != key) }
  else s

/-- The patch issued by the schema editor to `updateField`
(src/index.tsx:1771, 1779, 1791, 1808): the call sites only ever patch
`label`, `type`, `required` or `options`; in particular `key` is never
patched. -/
structure FieldPatch where
  label : Option String := none
  type : Option FieldType := none
  required : Option Bool := none
  options : Option (List String) := none

/-- JS object spread `{...f, ...changes}` for a `FieldPatch`. -/
def applyPatch (f : Field) (p : FieldPatch) : Field :=
  { f with
    label := p.label.getD f.label
    type := p.type.getD f.type
    required := p.required.getD f.required
    options := match p.options with | some o => some o | none => f.options }

/-- `updateField` (src/index.tsx:1629-1634) on one category's field list:
`currentFields[idx] = {...currentFields[idx], ...changes}`.  For an
out-of-range index the source would extend the array with holes (which
also cannot remove any existing field); the model leaves the list
unchanged there. -/
def updateField (fields : List Field) (idx : Nat) (p : FieldPatch) : List Field :=
  match fields[idx]? with
  | some f => fields.set idx (applyPatch f p)
  | none => fields

/-- The fresh field created by `addField` (src/index.tsx:1638-1643). -/
def newFieldFor (freshKey : String) : Field :=
  ⟨freshKey, "New Field", .text, false, none, none, none⟩

/-- `addField` (src/index.tsx:1636-1650): insert the fresh field
immediately before `notes` when present, else append.  `findIdx` returns
the length when no `notes` field exists, and inserting at the length is
exactly `push`, so the two JS branches collapse to one insertion. -/
def addField (fields : List Field) (freshKey : String) : List Field :=
  let notesIdx := fields.findIdx (fun f => f.key == "notes")
  fields.take notesIdx ++ [newFieldFor freshKey] ++ fields.drop notesIdx

/-- `removeField` (src/index.tsx:1652-1664): rejected (via `alert`) when
the field at `idx` is one of the four standard fields; otherwise removes
it after the `confirm` dialog.  The source throws a TypeError on an
out-of-range index (`currentFields[idx].key`), so the operation is only
ever invoked with a valid index (the editor maps over the list); the
model leaves the list unchanged there. -/
def removeField (fields : List Field) (idx : Nat) (confirmRemove : Bool) :
    List Field :=
  match fields[idx]? with
  | none => fields
  | some f =>
    if standardKeys.contains f.key then fields
    else if confirmRemove then fields.eraseIdx idx
    else fields

/-- The field lists reachable in the registry: every category's schema is
seeded by `createSchema` (the `INITIAL_SCHEMAS` rows at src/index.tsx:75-152
and `addCategory`'s `createSchema([])` at src/index.tsx:1611-1614) and then
evolved only by `addField` / `updateField` / `removeField`. -/
inductive ReachableSchema : List Field → Prop where
  | seed (specificFields : List Field) : ReachableSchema (createSchema specificFields)
  | add {s : List Field} (freshKey : String) :
      ReachableSchema s → ReachableSchema (addField s freshKey)
  | update {s : List Field} (idx : Nat) (p : FieldPatch) :
      ReachableSchema s → ReachableSchema (updateField s idx p)
  | remove {s : List Field} (idx : Nat) (c : Bool) :
      ReachableSchema s → ReachableSchema (removeField s idx c)

/-! ## Context Window Selector (src/index.tsx:261-281, 1190-1207) -/

/-- The local calendar day index of an epoch-millisecond timestamp, for a
fixed-offset local timezone `tz` (ms east of UTC). -/
def localDay (tz t : Int) : Int := (t + tz).fdiv 86400000

/-- `isSameDay` (src/index.tsx:277-281): same local calendar day. -/
def isSameDay (tz t1 t2 : Int) : Bool := localDay tz t1 == localDay tz t2

/-- Local midnight of the day containing `t` (`setHours(0,0,0,0)`). -/
def startOfDay (tz t : Int) : Int := localDay tz t * 86400000 - tz

/-- `getRollingWeekRange` (src/index.tsx:268-275): `[local midnight of
today, that midnight + 6d 23:59:59.999]`. -/
def getRollingWeekRange (tz t : Int) : Int × Int :=
  (startOfDay tz t, startOfDay tz t + 604799999)

/-- `ChatSettings.contextMode` (src/index.tsx:246). -/
inductive ContextMode where
  | global | today | week | custom
deriving DecidableEq, Repr

/-- `interface ChatSettings` (src/index.tsx:242-249).  The source stores
`customStartDate`/`customEndDate` as `YYYY-MM-DD` strings and converts
them with `new Date(s).getTime()`; the conversion is the JS `Date`
runtime's, so the model carries the already-converted epoch milliseconds
(`customStartMs`, `customEndMs`).  `contextRounds` is a non-negative
integer (the settings input parses with `parseInt`, substituting `0` for
`NaN`, src/index.tsx:2029). -/
structure ChatSettings where
  chatEnabled : Bool
  organizerEnabled : Bool
  contextRounds : Nat
  contextMode : ContextMode
  customStartMs : Int
  customEndMs : Int

/-- JS `xs.slice(-n)` for a non-negative `n`: `slice(-0)` is `slice(0)`
(the whole array, since `-0 === 0`); for `n > 0` it keeps the last
`min(n, length)` elements. -/
def jsSliceNeg (n : Nat) (xs : List ChatMessage) : List ChatMessage :=
  if n = 0 then xs else xs.drop (xs.length - n)

/-- `getFilteredHistory` (src/index.tsx:1190-1207): keep only `user`
messages, apply the per-mode date filter, then the depth cap
`slice(-contextRounds)` when `contextRounds < 9999`. -/
def getFilteredHistory (tz : Int) (settings : ChatSettings) (now : Int)
    (messages : List ChatMessage) : List ChatMessage :=
  let filtered := messages.filter (fun m => m.role == .user)
  let filtered :=
    match settings.contextMode with
    | .global => filtered
    | .today => filtered.filter (fun m => isSameDay tz m.timestamp now)
    | .week =>
        let r := getRollingWeekRange tz now
        filtered.filter (fun m => decide (r.1 ≤ m.timestamp) && decide (m.timestamp ≤ r.2))
    | .custom =>
        let s := settings.customStartMs
        let e := settings.customEndMs + 86400000
        filtered.filter (fun m => decide (s ≤ m.timestamp) && decide (m.timestamp ≤ e))
  if settings.contextRounds < 9999 then jsSliceNeg settings.contextRounds filtered
  else filtered

/-! ## Extraction Orchestrator (src/index.tsx:1242-1302) -/

/-- Observable outcome of the external structured-inference call: either
the promise rejected (`.error`), or it fulfilled and `res.text` was
`undefined` (`.ok none`) or a string (`.ok (some t)`). -/
abbrev ExtractOutcome := Except Unit (Option String)

/-- `organizeInput` (src/index.tsx:1242-1302) as a function of the
observable environment: `parse` models `JSON.parse` (`none` =
SyntaxError thrown, caught by the surrounding `try`), `apiKey` models
`GOOGLE_API_KEY` being set, `outcome` the inference call.  The source
returns `JSON.parse(txt) as any[]` without checking that the parsed
value is an array, so the result type is `Json`, the parsed value as-is;
the empty sequence is `Json.arr []`.  Every failure path is caught
inside this function (nothing is thrown past this boundary). -/
def organizeInput (parse : String → Option Json) (apiKey : Bool)
    (outcome : ExtractOutcome) : Json :=
  if !apiKey then Json.arr []
  else
    match outcome with
    | .error _ => Json.arr []      -- transport failure, caught
    | .ok none => Json.arr []      -- res.text undefined: `if (!txt)`
    | .ok (some t) =>
      if t == "" then Json.arr []  -- empty response text: `if (!txt)`
      else
        match parse t with
        | none => Json.arr []      -- JSON.parse threw, caught
        | some j => j              -- returned as-is, array or not

/-! ## Conversation Session Controller (src/index.tsx:1304-1372) -/

/-- `chatWithGemini` (src/index.tsx:1209-1240) as a function of the
observable environment.  `aborted` is true when the abort signal fired
before or during the call (the entry check at line 1221 or the
`Promise.race` rejection, both of which yield `""`); `outcome` is the
conversational call's result, `.ok t` modelling fulfilment with
`res.text || ""` equal to `t`. -/
def chatWithGemini (apiKey : Bool) (aborted : Bool)
    (outcome : Except Unit String) : String :=
  if !apiKey then "Error: No API Key"
  else if aborted then ""
  else
    match outcome with
    | .ok t => t
    | .error _ => "Thinking process interrupted or failed."

/-- String conversion of a parsed value in a JS template literal
(`` `[${e.date}] ${e.event}` ``, src/index.tsx:1349): `String(v)`, where
array elements stringify recursively with `null` printing as the empty
string. -/
def jsTemplate : Json → String
  | .null => "null"
  | .bool true => "true"
  | .bool false => "false"
  | .num n => toString n
  | .str s => s
  | .obj _ => "[object Object]"
  | .arr xs => String.intercalate "," (xs.attach.map (fun v =>
      match v with
      | ⟨.null, _⟩ => ""
      | ⟨w, _⟩ => jsTemplate w))
decreasing_by
  rename_i hw
  have := List.sizeOf_lt_of_mem hw
  simp only [Json.arr.sizeOf_spec]
  omega

/-- Template-literal conversion of a possibly-`undefined` value. -/
def jsTemplateOpt : Option Json → String
  | some v => jsTemplate v
  | none => "undefined"

/-- Materialization of one extraction candidate into an `Entry`
(src/index.tsx:1336-1342): `date: d.date || today`, `category: d.category`
(copied with no validation), `event: d.event`, `details: d?.details || {}`. -/
def materializeEntry (today : String) (freshId : String) (d : Json) : Entry :=
  { id := freshId
    date := jsOr (jget d "date") (Json.str today)
    category := jget d "category"
    event := jget d "event"
    details := jsOr (jget d "details") (Json.obj []) }

/-- The guard `!inputText.trim()` (src/index.tsx:1305): true iff the
draft text is empty or whitespace-only (i.e. `trim()` leaves the empty
string, which is falsy). -/
def trimEmpty (s : String) : Bool := s.data.all Char.isWhitespace

/-- The `Saved: ...` system-message text (src/index.tsx:1349). -/
def savedText (newEntries : List Entry) : String :=
  "Saved: " ++ String.intercalate ", "
    (newEntries.map (fun e => "[" ++ jsTemplate e.date ++ "] " ++ jsTemplateOpt e.event))

/-- The React state touched by the session controller handlers. -/
structure AppState where
  messages : List ChatMessage
  entries : List Entry
  rawLogs : List RawLog
  isProcessing : Bool
  inputText : String

/-- Observable environment of one `handleSendMessage` run: the clock
readings, generated random ids, the abort-signal timing and the two
external call outcomes.  `stopDuringChat` is true when the user's stop
fired before the post-chat abort check (src/index.tsx:1324);
`stopDuringExtract` is true when it fired during the extraction await —
the source never consults the signal there, which is exactly what claim
C1 probes. -/
structure TurnEnv where
  apiKey : Bool
  now : Int                       -- Date.now() for the user message
  rawLogId : String               -- Math.random id of the RawLog row
  stopDuringChat : Bool
  chatOutcome : Except Unit String
  nowModel : Int                  -- Date.now() for the model message
  stopDuringExtract : Bool
  parse : String → Option Json    -- JSON.parse
  extractOutcome : ExtractOutcome
  today : String                  -- formatDate(new Date())
  freshId : Nat → String          -- Math.random ids of new entries
  nowSystem : Int                 -- Date.now() for the system message

/-- The organizer phase of `handleSendMessage` (src/index.tsx:1331-1354),
followed by `setIsProcessing(false)`.  The guard
`structuredData && structuredData.length > 0` passes only for a
non-empty array (a non-array object or number has no `length`, so the
guard is falsy; a non-empty string response would pass the guard and
then throw at `.map`, a path outside every claim), and the abort signal
is never consulted: `env.stopDuringExtract` does not occur in the body. -/
def organizePhase (settings : ChatSettings) (env : TurnEnv) (s : AppState) :
    AppState :=
  let s1 :=
    if settings.organizerEnabled then
      match organizeInput env.parse env.apiKey env.extractOutcome with
      | Json.arr xs =>
        if 0 < xs.length then
          let newEntries := xs.mapIdx (fun i d => materializeEntry env.today (env.freshId i) d)
          let entryIds := newEntries.map (·.id)
          { s with
            entries := s.entries ++ newEntries
            messages := s.messages ++
              [{ role := .system, text := savedText newEntries,
                 timestamp := env.nowSystem, relatedEntryIds := some entryIds }] }
        else s
      | _ => s
    else s
  { s1 with isProcessing := false }

/-- `handleSendMessage` (src/index.tsx:1304-1357) as a state transformer
over one turn's observable environment.  The `getFilteredHistory` output
computed at line 1319 only shapes the external prompt (the reply text is
part of `env`), so it does not appear in the state function. -/
def handleSendMessage (settings : ChatSettings) (env : TurnEnv) (s : AppState) :
    AppState :=
  if trimEmpty s.inputText then s
  else if s.isProcessing then s
  else
    let userMsg : ChatMessage :=
      { role := .user, text := s.inputText, timestamp := env.now, relatedEntryIds := none }
    let s1 : AppState :=
      { s with
        messages := s.messages ++ [userMsg]
        inputText := ""
        isProcessing := true
        rawLogs := s.rawLogs ++ [{ id := env.rawLogId, timestamp := env.now, text := s.inputText }] }
    if settings.chatEnabled then
      let resp := chatWithGemini env.apiKey env.stopDuringChat env.chatOutcome
      let chatResponse := if resp == "" then "..." else resp
      if env.stopDuringChat then { s1 with isProcessing := false }
      else
        organizePhase settings env
          { s1 with
            messages := s1.messages ++
              [{ role := .model, text := chatResponse, timestamp := env.nowModel,
                 relatedEntryIds := none }] }
    else organizePhase settings env s1

/-- `handleStop` (src/index.tsx:1359-1364): aborts the in-flight
controller (reflected in the run via `TurnEnv.stopDuringChat` /
`TurnEnv.stopDuringExtract`) and clears the busy flag. -/
def handleStop (s : AppState) (hasActiveController : Bool) : AppState :=
  if hasActiveController then { s with isProcessing := false } else s

/-- `handleUndo` (src/index.tsx:1366-1372): delete the listed entries
from the store and append `" (Revoked)"` to the message at `msgIndex`. -/
def handleUndo (s : AppState) (msgIndex : Nat) (entryIds : List String) :
    AppState :=
  { s with
    entries := s.entries.filter (fun e => !(entryIds.contains e.id))
    messages := s.messages.mapIdx (fun i m =>
      if i = msgIndex then { m with text := m.text ++ " (Revoked)" } else m) }

/-- The ids of the core groups, `INITIAL_GROUPS.map id`. -/
def coreGroupIds : List String := INITIAL_GROUPS.map (·.id)

/-! ## Concrete fixtures used to evaluate the model -/

/-- A state with one entry-producing `system` message, as left behind by
a successful extraction batch. -/
def undoState : AppState :=
  ⟨[⟨.system, "Saved: x", 0, some ["e1"]⟩], [], [], false, ""⟩

/-- An extraction candidate whose `category` is not a known taxonomy
key. -/
def cand1 : Json :=
  Json.obj [("date", Json.str "2024-01-02"), ("category", Json.str "bogus"),
            ("event", Json.str "lunch"),
            ("details", Json.obj [("summary", Json.str "ate"), ("time", Json.str "12:00")])]

/-- A parse environment in which the external output decodes to a
one-candidate array. -/
def candParse : String → Option Json := fun _ => some (Json.arr [cand1])

/-- A parse environment in which the external output decodes to a
non-array JSON value. -/
def objParse : String → Option Json := fun _ => some (Json.obj [])

/-- Settings with the chat module off and the organizer on. -/
def orgOnlySettings : ChatSettings := ⟨false, true, 10, .global, 0, 0⟩

/-- Settings with both modules on. -/
def bothOnSettings : ChatSettings := ⟨true, true, 10, .global, 0, 0⟩

/-- An idle state holding the draft text `"hello"`. -/
def baseState : AppState := ⟨[], [], [], false, "hello"⟩

/-- A turn in which extraction succeeds with one candidate and no stop
is pressed. -/
def c2env : TurnEnv :=
  ⟨true, 0, "r1", false, .ok "hi", 1, false, candParse, .ok (some "x"),
   "2024-01-02", fun i => "id" ++ toString i, 2⟩

/-- A turn cancelled while the conversational call is in flight. -/
def c1env : TurnEnv :=
  ⟨true, 0, "r1", true, .ok "hi", 1, false, candParse, .ok (some "x"),
   "2024-01-02", fun i => "id" ++ toString i, 2⟩

/-- A turn cancelled while the extraction call is in flight (the stop
fires during the `organizeInput` await). -/
def c1exEnv : TurnEnv :=
  ⟨true, 0, "r1", false, .ok "hi", 1, true, candParse, .ok (some "x"),
   "2024-01-02", fun i => "id" ++ toString i, 2⟩

/-! ## Helper lemmas -/

/-- Setting an index of a list to the element already there is the
identity. -/
theorem set_get_self {α : Type} :
    ∀ (l : List α) (i : Nat) (a : α), l[i]? = some a → l.set i a = l := by
  intro l
  induction l with
  | nil => intro i a h; simp at h
  | cons x xs ih =>
    intro i a h
    cases i with
    | zero => simp at h; simp [h]
    | succ n => simp at h; simp [List.set, ih n a h]

/-- A mapped value still occurs after erasing an index holding a
different value. -/
theorem mem_map_eraseIdx {α β : Type} (g : α → β) :
    ∀ (l : List α) (i : Nat) (a : α), l[i]? = some a →
      ∀ k, k ∈ l.map g → k ≠ g a → k ∈ (l.eraseIdx i).map g := by
  intro l
  induction l with
  | nil => intro i a h; simp at h
  | cons x xs ih =>
    intro i a h k hk hne
    rw [List.map_cons, List.mem_cons] at hk
    cases i with
    | zero =>
      simp at h
      subst h
      show k ∈ xs.map g
      rcases hk with h1 | h1
      · exact absurd h1 hne
      · exact h1
    | succ n =>
      simp at h
      show k ∈ (x :: xs.eraseIdx n).map g
      rw [List.map_cons, List.mem_cons]
      rcases hk with h1 | h1
      · exact Or.inl h1
      · exact Or.inr (ih n a h k h1 hne)

/-- Each of the four standard keys occurs in every `createSchema` result. -/
theorem standard_mem_createSchema (spec : List Field) :
    ∀ k ∈ standardKeys, k ∈ (createSchema spec).map Field.key := by
  intro k hk
  fin_cases hk <;> simp [createSchema]

/-- `addField` never loses a key. -/
theorem mem_keys_addField (l : List Field) (fk k : String)
    (h : k ∈ l.map Field.key) : k ∈ (addField l fk).map Field.key := by
  unfold addField
  rw [List.map_append, List.map_append]
  have h2 : k ∈ (l.take (l.findIdx (fun f => f.key == "notes"))).map Field.key ++
      (l.drop (l.findIdx (fun f => f.key == "notes"))).map Field.key := by
    rw [← List.map_append, List.take_append_drop]
    exact h
  rcases List.mem_append.mp h2 with h3 | h3
  · exact List.mem_append.mpr (Or.inl (List.mem_append.mpr (Or.inl h3)))
  · exact List.mem_append.mpr (Or.inr h3)

/-- `updateField` patches (label/type/required/options) never change any
key. -/
theorem keys_updateField (l : List Field) (idx : Nat) (p : FieldPatch) :
    (updateField l idx p).map Field.key = l.map Field.key := by
  unfold updateField
  cases hg : l[idx]? with
  | none => rfl
  | some f =>
    rw [List.map_set]
    have hkey : (applyPatch f p).key = f.key := rfl
    rw [hkey]
    apply set_get_self
    rw [List.getElem?_map, hg]
    rfl

/-- `removeField` never loses a standard key. -/
theorem mem_keys_removeField (l : List Field) (idx : Nat) (c : Bool) (k : String)
    (hk : k ∈ standardKeys) (h : k ∈ l.map Field.key) :
    k ∈ (removeField l idx c).map Field.key := by
  unfold removeField
  cases hg : l[idx]? with
  | none => exact h
  | some f =>
    show k ∈ List.map Field.key
      (if standardKeys.contains f.key then l
       else if c then l.eraseIdx idx else l)
    by_cases hstd : standardKeys.contains f.key = true
    · rw [if_pos hstd]; exact h
    · rw [if_neg hstd]
      cases c with
      | false => exact h
      | true =>
        rw [if_pos rfl]
        refine mem_map_eraseIdx Field.key l idx f hg k h ?_
        intro hke
        exact hstd (List.elem_eq_true_of_mem (hke ▸ hk))

/-! ## Claim theorems -/

/-- Claim C7: every category's field list always contains the four
standard fields `summary`, `time`, `duration`, `notes` (an invariant of
all reachable schema states, freshly created categories included);
`removeField` on a standard field fails and leaves the schema unchanged;
and a new category's schema (`createSchema []`) is seeded with exactly
the four standard fields. -/
theorem C7_standard_fields :
    (∀ s, ReachableSchema s → ∀ k ∈ standardKeys, k ∈ s.map Field.key)
    ∧ (∀ (s : List Field) (idx : Nat) (c : Bool) (f : Field),
        s[idx]? = some f → f.key ∈ standardKeys → removeField s idx c = s)
    ∧ (createSchema []).map Field.key = standardKeys := by
  refine ⟨?_, ?_, by simp [createSchema, standardKeys]⟩
  · intro s hs
    induction hs with
    | seed spec => exact standard_mem_createSchema spec
    | add fk _ ih => intro k hk; exact mem_keys_addField _ fk k (ih k hk)
    | update idx p _ ih => intro k hk; rw [keys_updateField]; exact ih k hk
    | remove idx c _ ih => intro k hk; exact mem_keys_removeField _ idx c k hk (ih k hk)
  · intro s idx c f hg hf
    unfold removeField
    rw [hg]
    show (if standardKeys.contains f.key then s
          else if c then s.eraseIdx idx else s) = s
    have hc : standardKeys.contains f.key = true := List.elem_eq_true_of_mem hf
    rw [if_pos hc]

/-- Witness for C7 at a freshly created category. -/
theorem C7_standard_fields_witness :
    ("summary" ∈ (createSchema []).map Field.key)
    ∧ removeField (createSchema []) 0 true = createSchema [] :=
  ⟨C7_standard_fields.1 (createSchema []) (.seed []) "summary" (by decide),
   C7_standard_fields.2.1 (createSchema []) 0 true
     ⟨"summary", "简述", .text, true, none, none, some "10字以内具体的事件描述"⟩
     rfl (by decide)⟩

/-- Claim C8: a `submit` while a prior turn is in flight (busy flag set)
is rejected outright — no user message, no RawLog row, no entries, state
unchanged (in particular no inference call's effects can occur). -/
theorem C8_busy_submit_rejected (settings : ChatSettings) (env : TurnEnv)
    (s : AppState) (h : s.isProcessing = true) :
    handleSendMessage settings env s = s := by
  unfold handleSendMessage
  rw [h]
  simp

/-- Witness for C8: a concrete busy state is left untouched. -/
theorem C8_busy_submit_rejected_witness :
    handleSendMessage ⟨true, true, 10, .global, 0, 0⟩
      ⟨true, 0, "r1", false, .ok "hi", 1, false, fun _ => none, .error (), "2026-01-01",
        fun i => "id" ++ toString i, 2⟩
      ⟨[], [], [], true, "hello"⟩ = ⟨[], [], [], true, "hello"⟩ :=
  C8_busy_submit_rejected _ _ _ rfl

/-- Claim C9: `deleteGroup` on any core group id is rejected (a
user-visible `alert` no-op) and the Groups collection is unchanged. -/
theorem C9_core_group_delete_rejected (groups : List GroupDef) (id : String)
    (c : Bool) (h : id ∈ coreGroupIds) :
    deleteGroup groups id c = groups := by
  unfold deleteGroup
  have : INITIAL_GROUPS.any (fun g => g.id == id) = true := by
    fin_cases h <;> decide
  simp [this]

/-- Witness for C9: deleting the core group `life` leaves a concrete
Groups collection unchanged. -/
theorem C9_core_group_delete_rejected_witness :
    deleteGroup [⟨"life", "日常"⟩, ⟨"g1", "extra"⟩] "life" true =
      [⟨"life", "日常"⟩, ⟨"g1", "extra"⟩] :=
  C9_core_group_delete_rejected _ "life" true (by decide)

/-- Claim C10: `deleteCategory(key)` removes only the CategoryMeta row
for `key`; the category's FieldSchema mapping entry and every existing
Entry (those with `category = key` included) are untouched, whether or
not the confirm dialog is accepted. -/
theorem C10_delete_category_frame (s : RegistryState) (key : String) (c : Bool) :
    (deleteCategory s key c).customSchemas = s.customSchemas
    ∧ (deleteCategory s key c).entries = s.entries
    ∧ (deleteCategory s key true).categoryMeta =
        s.categoryMeta.filter (fun p => p.1 != key) := by
  unfold deleteCategory
  cases c <;> simp

/-- The depth cap applied at src/index.tsx:1203-1205: a sublist, and
bounded by `rounds` whenever `0 < rounds`. -/
theorem sliceCap_sublist_len (rounds : Nat) (l : List ChatMessage) :
    (if rounds < 9999 then jsSliceNeg rounds l else l).Sublist l
    ∧ (0 < rounds → rounds < 9999 →
        (if rounds < 9999 then jsSliceNeg rounds l else l).length ≤ rounds) := by
  constructor
  · split
    · unfold jsSliceNeg
      split
      · exact List.Sublist.refl l
      · exact List.drop_sublist _ l
    · exact List.Sublist.refl l
  · intro hpos hlt
    rw [if_pos hlt]
    unfold jsSliceNeg
    rw [if_neg (Nat.pos_iff_ne_zero.mp hpos)]
    rw [List.length_drop]
    omega

/-- The date-filter stage output is a sublist of the user-filtered list,
in every mode. -/
theorem dateStage_sublist (tz : Int) (settings : ChatSettings) (now : Int)
    (l : List ChatMessage) :
    (match settings.contextMode with
     | .global => l
     | .today => l.filter (fun m => isSameDay tz m.timestamp now)
     | .week =>
         let r := getRollingWeekRange tz now
         l.filter (fun m => decide (r.1 ≤ m.timestamp) && decide (m.timestamp ≤ r.2))
     | .custom =>
         let s := settings.customStartMs
         let e := settings.customEndMs + 86400000
         l.filter (fun m => decide (s ≤ m.timestamp) && decide (m.timestamp ≤ e))).Sublist l := by
  cases settings.contextMode
  · exact List.Sublist.refl l
  · exact List.filter_sublist l
  · exact List.filter_sublist l
  · exact List.filter_sublist l

/-- Claim C4 (amended): the selector output is a subsequence of the
input in the original order, contains only `user` messages, and its
length is at most `contextRounds` whenever `0 < contextRounds < 9999`.
(The original claim's bound for `contextRounds = 0` fails: JS
`slice(-0)` is `slice(0)`, the whole list — see the counterexample.) -/
theorem C4_selector_shape (tz : Int) (settings : ChatSettings) (now : Int)
    (messages : List ChatMessage) :
    (getFilteredHistory tz settings now messages).Sublist messages
    ∧ (∀ m ∈ getFilteredHistory tz settings now messages, m.role = .user)
    ∧ (0 < settings.contextRounds → settings.contextRounds < 9999 →
        (getFilteredHistory tz settings now messages).length ≤ settings.contextRounds) := by
  unfold getFilteredHistory
  have hstage := dateStage_sublist tz settings now
    (messages.filter (fun m => m.role == .user))
  have hcap := sliceCap_sublist_len settings.contextRounds
    (match settings.contextMode with
     | .global => messages.filter (fun m => m.role == .user)
     | .today => (messages.filter (fun m => m.role == .user)).filter
         (fun m => isSameDay tz m.timestamp now)
     | .week =>
         let r := getRollingWeekRange tz now
         (messages.filter (fun m => m.role == .user)).filter
           (fun m => decide (r.1 ≤ m.timestamp) && decide (m.timestamp ≤ r.2))
     | .custom =>
         let s := settings.customStartMs
         let e := settings.customEndMs + 86400000
         (messages.filter (fun m => m.role == .user)).filter
           (fun m => decide (s ≤ m.timestamp) && decide (m.timestamp ≤ e)))
  refine ⟨?_, ?_, hcap.2⟩
  · exact (hcap.1.trans hstage).trans (List.filter_sublist messages)
  · intro m hm
    have hm2 : m ∈ messages.filter (fun m => m.role == .user) :=
      (hcap.1.trans hstage).subset hm
    have := List.of_mem_filter hm2
    simpa using this

/-- Counterexample to C4 as stated: with `contextRounds = 0` (reachable
from the settings input, src/index.tsx:2029) the cap branch runs
`slice(-0)` = `slice(0)`, returning the whole filtered list, so
`|output| ≤ rounds` fails. -/
theorem C4_selector_shape_cex :
    (⟨false, false, 0, .global, 0, 0⟩ : ChatSettings).contextRounds < 9999
    ∧ ¬((getFilteredHistory 0 ⟨false, false, 0, .global, 0, 0⟩ 0
          [⟨.user, "hi", 0, none⟩]).length ≤
        (⟨false, false, 0, .global, 0, 0⟩ : ChatSettings).contextRounds) := by
  decide

/-- Witness for C4 at a concrete policy with `rounds = 10`. -/
theorem C4_selector_shape_witness :
    (getFilteredHistory 0 ⟨false, false, 10, .global, 0, 0⟩ 0
      [⟨.user, "hi", 0, none⟩]).length ≤ 10 :=
  (C4_selector_shape 0 ⟨false, false, 10, .global, 0, 0⟩ 0
    [⟨.user, "hi", 0, none⟩]).2.2 (by decide) (by decide)

/-- Claim C5 (amended): in `custom` context mode (with the depth cap
disabled, `rounds = 9999`) a message survives the selector iff it is a
`user` message of the log whose timestamp lies in the CLOSED interval
`[customStart 00:00, customEnd + 1 day]`: the source compares with
`m.timestamp <= e` where `e = customEnd + 86400000`, so the instant
exactly one day after the start of `customEnd`'s day is INCLUDED (the
original claim's half-open interval excludes it — see the
counterexample). -/
theorem C5_custom_interval (tz : Int) (settings : ChatSettings) (now : Int)
    (messages : List ChatMessage) (m : ChatMessage)
    (hmode : settings.contextMode = .custom)
    (hrounds : settings.contextRounds = 9999) :
    m ∈ getFilteredHistory tz settings now messages ↔
      m ∈ messages ∧ m.role = .user ∧
      settings.customStartMs ≤ m.timestamp ∧
      m.timestamp ≤ settings.customEndMs + 86400000 := by
  unfold getFilteredHistory
  rw [hmode, hrounds]
  simp only [List.mem_filter, jsSliceNeg]
  simp [and_assoc]
  tauto

/-- Counterexample to C5 as stated: with `customStart = customEnd = day
0`, a user message stamped exactly at `customEnd + 1 day` (86400000 ms)
survives the filter although the claimed half-open interval
`[0, 86400000)` excludes it. -/
theorem C5_custom_interval_cex :
    (⟨.user, "t", 86400000, none⟩ : ChatMessage) ∈
      getFilteredHistory 0 ⟨false, false, 9999, .custom, 0, 0⟩ 0
        [⟨.user, "t", 86400000, none⟩]
    ∧ ¬((86400000 : Int) < 0 + 86400000) := by
  constructor
  · decide
  · decide

/-- Witness for C5 at a concrete log and custom policy. -/
theorem C5_custom_interval_witness :
    (⟨.user, "t", 5, none⟩ : ChatMessage) ∈
      getFilteredHistory 0 ⟨false, false, 9999, .custom, 0, 0⟩ 0
        [⟨.user, "t", 5, none⟩] ↔
      (⟨.user, "t", 5, none⟩ : ChatMessage) ∈ [(⟨.user, "t", 5, none⟩ : ChatMessage)]
      ∧ (⟨.user, "t", 5, none⟩ : ChatMessage).role = .user
      ∧ (0 : Int) ≤ 5 ∧ (5 : Int) ≤ 0 + 86400000 :=
  C5_custom_interval 0 ⟨false, false, 9999, .custom, 0, 0⟩ 0
    [⟨.user, "t", 5, none⟩] ⟨.user, "t", 5, none⟩ rfl rfl

/-- Claim C3 (amended): `revoke` is idempotent on the Entry Store — the
second call leaves the entries exactly as after the first — but the
message annotation is NOT a state-level no-op: each call appends the
`" (Revoked)"` marker to the originating message's text again (the
derived "is revoked" reading, `text.includes("(Revoked)")`, stays true,
and the UI hides the revoke control once marked, but the stored text
grows — see the counterexample). -/
theorem C3_revoke_idempotent_on_store (s : AppState) (idx : Nat)
    (ids : List String) :
    (handleUndo (handleUndo s idx ids) idx ids).entries =
      (handleUndo s idx ids).entries
    ∧ (handleUndo (handleUndo s idx ids) idx ids).messages =
      (handleUndo s idx ids).messages.mapIdx (fun i m =>
        if i = idx then { m with text := m.text ++ " (Revoked)" } else m) := by
  constructor
  · show (s.entries.filter (fun e => !(ids.contains e.id))).filter
        (fun e => !(ids.contains e.id)) =
      s.entries.filter (fun e => !(ids.contains e.id))
    rw [List.filter_filter]
    congr 1
    funext e
    exact Bool.and_self _
  · rfl

/-- Counterexample to C3 as stated: revoking the same message twice is
not a no-op — the stored message text differs after the second call
(`"Saved: x (Revoked) (Revoked)"` vs `"Saved: x (Revoked)"`). -/
theorem C3_revoke_idempotent_on_store_cex :
    (handleUndo (handleUndo undoState 0 ["e1"]) 0 ["e1"]).messages ≠
      (handleUndo undoState 0 ["e1"]).messages := by
  decide

/-- Claim C6 (amended): `organizeInput` never throws past its boundary
(it is a total function of the observable outcome: every failure path is
caught); on a transport failure, an absent or empty response text, or
unparsable output it returns the empty sequence.  Parseable NON-ARRAY
output, however, is returned as-is rather than as an empty sequence (for
a non-array object the caller's falsy `length` guard then materializes
nothing) — see the counterexample. -/
theorem C6_extract_fallback (parse : String → Option Json) (apiKey : Bool) :
    organizeInput parse apiKey (.error ()) = Json.arr []
    ∧ organizeInput parse apiKey (.ok none) = Json.arr []
    ∧ organizeInput parse apiKey (.ok (some "")) = Json.arr []
    ∧ (∀ t, parse t = none → organizeInput parse apiKey (.ok (some t)) = Json.arr []) := by
  unfold organizeInput
  cases apiKey with
  | false => exact ⟨rfl, rfl, rfl, fun t ht => rfl⟩
  | true =>
    refine ⟨rfl, rfl, rfl, fun t ht => ?_⟩
    cases htt : t == "" <;> simp [ht, htt]

/-- Witness for C6: unparsable output at a concrete input yields the
empty sequence. -/
theorem C6_extract_fallback_witness :
    organizeInput (fun _ => none) true (.ok (some "x")) = Json.arr [] :=
  (C6_extract_fallback (fun _ => none) true).2.2.2 "x" rfl

/-- Counterexample to C6 as stated: a parseable non-array response
(`"{}"`) is returned as the parsed object itself, which is not an
(empty) sequence of candidates. -/
theorem C6_extract_fallback_cex :
    organizeInput objParse true (.ok (some "{}")) = Json.obj []
    ∧ ∀ xs, Json.obj [] ≠ Json.arr xs :=
  ⟨rfl, fun _ h => Json.noConfusion h⟩

/-- Claim C2 (amended): on receipt of extraction output the session
controller performs NO category re-validation: every element of a
non-empty returned array is materialized as an Entry — with its
`category` copied as-is, missing or unknown to the taxonomy included —
and no exception is raised (the run is a total state function).  The
`category ∈ known keys` constraint lives only in the request's response
schema, not in any receipt-side check — see the counterexample. -/
theorem C2_no_receipt_validation (settings : ChatSettings) (env : TurnEnv)
    (s : AppState) (xs : List Json)
    (ht : trimEmpty s.inputText = false)
    (hbusy : s.isProcessing = false)
    (hstop : env.stopDuringChat = false)
    (horg : settings.organizerEnabled = true)
    (hres : organizeInput env.parse env.apiKey env.extractOutcome = Json.arr xs)
    (hne : 0 < xs.length) :
    (handleSendMessage settings env s).entries =
      s.entries ++ xs.mapIdx (fun i d => materializeEntry env.today (env.freshId i) d) := by
  unfold handleSendMessage organizePhase
  cases hch : settings.chatEnabled <;>
    simp [ht, hbusy, hstop, horg, hres, hne]

/-- Witness for C2: the concrete unknown-category candidate is
materialized. -/
theorem C2_no_receipt_validation_witness :
    (handleSendMessage orgOnlySettings c2env baseState).entries =
      baseState.entries ++
        [cand1].mapIdx (fun i d => materializeEntry c2env.today (c2env.freshId i) d) :=
  C2_no_receipt_validation orgOnlySettings c2env baseState [cand1]
    rfl rfl rfl rfl rfl (by decide)

/-- Counterexample to C2 as stated: `"bogus"` is not a known taxonomy
key, yet the candidate carrying it is materialized as an Entry (with
`category` stored as-is) instead of being discarded. -/
theorem C2_no_receipt_validation_cex :
    ¬("bogus" ∈ knownKeys INITIAL_CATEGORY_META)
    ∧ (handleSendMessage orgOnlySettings c2env baseState).entries =
        [{ id := "id0", date := Json.str "2024-01-02",
           category := some (Json.str "bogus"), event := some (Json.str "lunch"),
           details := Json.obj [("summary", Json.str "ate"), ("time", Json.str "12:00")] }] := by
  exact ⟨by decide, rfl⟩

/-- Claim C1 (amended): a turn cancelled mid-flight during the
CONVERSATIONAL call resolves with no `model` message appended (only the
`user` message and its RawLog row, written before the call, remain), no
entries appended, and the busy flag cleared.  The abort signal is NOT
threaded through the extraction call (`organizeInput` takes no signal
and `handleSendMessage` never re-checks it after that await), so a turn
cancelled during the EXTRACTION call still appends the extracted entries
and the summarizing `system` message (the busy flag still clears) — see
the counterexample. -/
theorem C1_cancel_during_chat (settings : ChatSettings) (env : TurnEnv)
    (s : AppState)
    (hchat : settings.chatEnabled = true)
    (hstop : env.stopDuringChat = true)
    (ht : trimEmpty s.inputText = false)
    (hbusy : s.isProcessing = false) :
    handleSendMessage settings env s =
      { s with
        messages := s.messages ++ [⟨.user, s.inputText, env.now, none⟩]
        inputText := ""
        isProcessing := false
        rawLogs := s.rawLogs ++ [⟨env.rawLogId, env.now, s.inputText⟩] } := by
  unfold handleSendMessage
  simp [ht, hbusy, hchat, hstop]

/-- Witness for C1: a concrete cancelled conversational turn. -/
theorem C1_cancel_during_chat_witness :
    handleSendMessage bothOnSettings c1env baseState =
      { baseState with
        messages := baseState.messages ++ [⟨.user, "hello", 0, none⟩]
        inputText := ""
        isProcessing := false
        rawLogs := baseState.rawLogs ++ [⟨"r1", 0, "hello"⟩] } :=
  C1_cancel_during_chat bothOnSettings c1env baseState rfl rfl rfl rfl

/-- Counterexample to C1 as stated: a turn whose stop fires during the
extraction await still appends the extracted entries to the Entry
Store. -/
theorem C1_cancel_during_chat_cex :
    c1exEnv.stopDuringExtract = true
    ∧ (handleSendMessage orgOnlySettings c1exEnv baseState).entries ≠
        baseState.entries := by
  refine ⟨rfl, ?_⟩
  have h : (handleSendMessage orgOnlySettings c1exEnv baseState).entries =
      [materializeEntry "2024-01-02" "id0" cand1] := rfl
  rw [h]
  exact List.cons_ne_nil _ _

end LifeOS
